import Mathlib

/-!
Verification of the placement engine `_pad_image_to_position` from
`src/image_alignment/_widget.py`.

Rasters (numpy arrays) of rank 2 and 3 are embedded as a shape together
with a total lookup function on integer indices; the meaningful entries
are those with indices inside the shape.  Translation components are
modelled as rationals (the Python code receives floats and immediately
rounds them to integers with `int(round(x))`; the Python 3 builtin
`round` rounds half to even).  Offsets and all slice bounds are integers, as in the
Python code.
-/

namespace ImageAlignment

/-- The Python expression `int(round(x))` used on lines 190-201: round to the
nearest integer, ties to even (Python 3 `round` semantics). -/
def pyRound (q : ℚ) : ℤ :=
  if q - ⌊q⌋ < 1 / 2 then ⌊q⌋
  else if 1 / 2 < q - ⌊q⌋ then ⌊q⌋ + 1
  else if ⌊q⌋ % 2 = 0 then ⌊q⌋ else ⌊q⌋ + 1

/-- A rank-2 numpy array: a shape and an element lookup on integer indices. -/
@[ext] structure Raster2 (α : Type) where
  shape0 : ℕ
  shape1 : ℕ
  data : ℤ → ℤ → α

/-- A rank-3 numpy array: a shape and an element lookup on integer indices. -/
@[ext] structure Raster3 (α : Type) where
  shape0 : ℕ
  shape1 : ℕ
  shape2 : ℕ
  data : ℤ → ℤ → ℤ → α

/-- `np.zeros(target_shape, dtype=...)` for rank 2 (line 210 of `_widget.py`). -/
def zeros2 (α : Type) [Zero α] (t0 t1 : ℕ) : Raster2 α :=
  ⟨t0, t1, fun _ _ => 0⟩

/-- `np.zeros(target_shape, dtype=...)` for rank 3 (line 210 of `_widget.py`). -/
def zeros3 (α : Type) [Zero α] (t0 t1 t2 : ℕ) : Raster3 α :=
  ⟨t0, t1, t2, fun _ _ _ => 0⟩

/-- `start = max(0, offset)` — destination range start (lines 217-218, 242-244). -/
def dstStart (o : ℤ) : ℤ := max 0 o

/-- `end = min(target_extent, offset + source_extent)` — destination range end
(lines 219-220, 245-247). -/
def dstEnd (t : ℕ) (o : ℤ) (s : ℕ) : ℤ := min (t : ℤ) (o + (s : ℤ))

/-- `src_start = max(0, -offset)` — source range start (lines 223-224, 249-251). -/
def srcStart (o : ℤ) : ℤ := max 0 (-o)

/-- `src_end = src_start + (end - start)` — source range end (lines 225-226, 252-254). -/
def srcEnd (t : ℕ) (o : ℤ) (s : ℕ) : ℤ := srcStart o + (dstEnd t o s - dstStart o)

/-- Numpy basic-slice assignment
`dst[sy:ey, sx:ex] = src[ssy:ssy+(ey-sy), ssx:ssx+(ex-sx)]`
for in-range bounds: inside the destination window the element is read from
the source at the matching offset, elsewhere the destination is unchanged. -/
def sliceAssign2 {α : Type} (dst : Raster2 α) (sy ey sx ex ssy ssx : ℤ)
    (src : Raster2 α) : Raster2 α :=
  { dst with data := fun i j =>
      if sy ≤ i ∧ i < ey ∧ sx ≤ j ∧ j < ex then
        src.data (ssy + (i - sy)) (ssx + (j - sx))
      else dst.data i j }

/-- Numpy basic-slice assignment for rank 3, as in lines 257-258. -/
def sliceAssign3 {α : Type} (dst : Raster3 α) (sz ez sy ey sx ex ssz ssy ssx : ℤ)
    (src : Raster3 α) : Raster3 α :=
  { dst with data := fun k i j =>
      if sz ≤ k ∧ k < ez ∧ sy ≤ i ∧ i < ey ∧ sx ≤ j ∧ j < ex then
        src.data (ssz + (k - sz)) (ssy + (i - sy)) (ssx + (j - sx))
      else dst.data k i j }

/-- The 2D placement of `_pad_image_to_position` (lines 209-237) after the
integer offsets have been computed: zero canvas, clamped bounds, guarded copy. -/
def padImage2 (α : Type) [Zero α] (small : Raster2 α) (t0 t1 : ℕ)
    (oy ox : ℤ) : Raster2 α :=
  let padded := zeros2 α t0 t1
  let h := small.shape0
  let w := small.shape1
  let start_y := dstStart oy
  let start_x := dstStart ox
  let end_y := dstEnd t0 oy h
  let end_x := dstEnd t1 ox w
  let src_start_y := srcStart oy
  let src_start_x := srcStart ox
  if start_y < end_y ∧ start_x < end_x then
    sliceAssign2 padded start_y end_y start_x end_x src_start_y src_start_x small
  else padded

/-- The 3D placement of `_pad_image_to_position` (lines 209-258) after the
integer offsets have been computed. -/
def padImage3 (α : Type) [Zero α] (small : Raster3 α) (t0 t1 t2 : ℕ)
    (oz oy ox : ℤ) : Raster3 α :=
  let padded := zeros3 α t0 t1 t2
  let d := small.shape0
  let h := small.shape1
  let w := small.shape2
  let start_z := dstStart oz
  let start_y := dstStart oy
  let start_x := dstStart ox
  let end_z := dstEnd t0 oz d
  let end_y := dstEnd t1 oy h
  let end_x := dstEnd t2 ox w
  let src_start_z := srcStart oz
  let src_start_y := srcStart oy
  let src_start_x := srcStart ox
  if start_z < end_z ∧ start_y < end_y ∧ start_x < end_x then
    sliceAssign3 padded start_z end_z start_y end_y start_x end_x
      src_start_z src_start_y src_start_x small
  else padded

/-- Offset computation of the `len(target_shape) == 2` branch (lines 185-192):
`if len(translate) >= 2` take the first two components rounded, else `(0, 0)`. -/
def computeOffsets2 : List ℚ → ℤ × ℤ
  | t0 :: t1 :: _ => (pyRound t0, pyRound t1)
  | _ => (0, 0)

/-- Offset computation of the 3D branch (lines 193-201): `if len(translate) >= 3`
take the first three components rounded; `elif len(translate) >= 2` set the depth
offset to 0 and round the two given components; else `(0, 0, 0)`. -/
def computeOffsets3 : List ℚ → ℤ × ℤ × ℤ
  | t0 :: t1 :: t2 :: _ => (pyRound t0, pyRound t1, pyRound t2)
  | [t0, t1] => (0, pyRound t0, pyRound t1)
  | _ => (0, 0, 0)

/-- `_pad_image_to_position` on the `len(target_shape) == 2` branch with a rank-2
source: offset computation followed by the guarded placement. -/
def padImageToPosition2 (α : Type) [Zero α] (small : Raster2 α) (t0 t1 : ℕ)
    (translate : List ℚ) : Raster2 α :=
  let o := computeOffsets2 translate
  padImage2 α small t0 t1 o.1 o.2

/-- `_pad_image_to_position` on the 3D branch with a rank-3 source. -/
def padImageToPosition3 (α : Type) [Zero α] (small : Raster3 α) (t0 t1 t2 : ℕ)
    (translate : List ℚ) : Raster3 α :=
  let o := computeOffsets3 translate
  padImage3 α small t0 t1 t2 o.1 o.2.1 o.2.2

/-- Reference placement for rank 2, written from the claim wording: an all-zero
raster of the target shape in which, when on every axis
`len_a = min(t_a, o_a + s_a) - max(0, o_a)` is positive, the sub-block
`source[max(0,-o_a) : max(0,-o_a)+len_a]` is copied verbatim into
`output[max(0,o_a) : min(t_a, o_a + s_a)]`. -/
def refPlace2 (α : Type) [Zero α] (src : Raster2 α) (t0 t1 : ℕ)
    (o0 o1 : ℤ) : Raster2 α :=
  ⟨t0, t1, fun i j =>
    if 0 < min (t0 : ℤ) (o0 + (src.shape0 : ℤ)) - max 0 o0 ∧
       0 < min (t1 : ℤ) (o1 + (src.shape1 : ℤ)) - max 0 o1 ∧
       max 0 o0 ≤ i ∧ i < min (t0 : ℤ) (o0 + (src.shape0 : ℤ)) ∧
       max 0 o1 ≤ j ∧ j < min (t1 : ℤ) (o1 + (src.shape1 : ℤ)) then
      src.data (max 0 (-o0) + (i - max 0 o0)) (max 0 (-o1) + (j - max 0 o1))
    else 0⟩

/-- Reference placement for rank 3, written from the claim wording. -/
def refPlace3 (α : Type) [Zero α] (src : Raster3 α) (t0 t1 t2 : ℕ)
    (o0 o1 o2 : ℤ) : Raster3 α :=
  ⟨t0, t1, t2, fun k i j =>
    if 0 < min (t0 : ℤ) (o0 + (src.shape0 : ℤ)) - max 0 o0 ∧
       0 < min (t1 : ℤ) (o1 + (src.shape1 : ℤ)) - max 0 o1 ∧
       0 < min (t2 : ℤ) (o2 + (src.shape2 : ℤ)) - max 0 o2 ∧
       max 0 o0 ≤ k ∧ k < min (t0 : ℤ) (o0 + (src.shape0 : ℤ)) ∧
       max 0 o1 ≤ i ∧ i < min (t1 : ℤ) (o1 + (src.shape1 : ℤ)) ∧
       max 0 o2 ≤ j ∧ j < min (t2 : ℤ) (o2 + (src.shape2 : ℤ)) then
      src.data (max 0 (-o0) + (k - max 0 o0)) (max 0 (-o1) + (i - max 0 o1))
        (max 0 (-o2) + (j - max 0 o2))
    else 0⟩

/-- Errors numpy raises during placement. The widget code defines no error type
of its own; in particular no InvalidRankError exists anywhere in the repository. -/
inductive NpError where
  | broadcastError

/-- Behaviour of the `len(target_shape) == 2` branch (lines 213-237) on a rank-3
source raster, with numpy semantics: `small_image.shape[:2]` on line 214 keeps
the first two source axes, the bounds are computed from them, and when the
guarded slice assignment on line 234 executes, the right-hand block has rank 3
while the destination region has rank 2, so numpy raises a broadcasting
ValueError; when the guard fails, no assignment happens and the all-zero rank-2
canvas is returned without complaint. -/
def padImage2OfRank3Source (α : Type) [Zero α] (small : Raster3 α) (t0 t1 : ℕ)
    (oy ox : ℤ) : Except NpError (Raster2 α) :=
  let h := small.shape0
  let w := small.shape1
  if dstStart oy < dstEnd t0 oy h ∧ dstStart ox < dstEnd t1 ox w then
    .error .broadcastError
  else .ok (zeros2 α t0 t1)

/-- `_pad_image_to_position` on the `len(target_shape) == 2` branch when the
source raster has rank 3: offset computation followed by the guarded placement. -/
def padImageToPosition2OfRank3Source (α : Type) [Zero α] (small : Raster3 α)
    (t0 t1 : ℕ) (translate : List ℚ) : Except NpError (Raster2 α) :=
  let o := computeOffsets2 translate
  padImage2OfRank3Source α small t0 t1 o.1 o.2

/-- A concrete 1-by-1 integer raster holding the value 1. -/
def oneCell : Raster2 ℤ := ⟨1, 1, fun _ _ => 1⟩

/-- A concrete 2-by-2 integer raster holding the value 1. -/
def smallSq : Raster2 ℤ := ⟨2, 2, fun _ _ => 1⟩

/-- A concrete 2-by-2-by-2 rank-3 integer raster holding the value 1. -/
def smallCube : Raster3 ℤ := ⟨2, 2, 2, fun _ _ _ => 1⟩

/-- C1: for every rank-2 or rank-3 source, target shape of the same rank and
integer per-axis offsets, `_pad_image_to_position` computes exactly the
reference placement of the specification: an all-zero raster of the target
shape into which, when every axis has positive overlap length, the clamped
source sub-block is copied verbatim at the clamped destination position. -/
theorem pad_matches_reference :
    (∀ (α : Type) [Zero α] (src : Raster2 α) (t0 t1 : ℕ) (o0 o1 : ℤ),
      padImage2 α src t0 t1 o0 o1 = refPlace2 α src t0 t1 o0 o1) ∧
    (∀ (α : Type) [Zero α] (src : Raster3 α) (t0 t1 t2 : ℕ) (o0 o1 o2 : ℤ),
      padImage3 α src t0 t1 t2 o0 o1 o2 = refPlace3 α src t0 t1 t2 o0 o1 o2) := by
  constructor
  · intro α _ src t0 t1 o0 o1
    simp only [padImage2, refPlace2, zeros2, sliceAssign2, dstStart, dstEnd, srcStart]
    split_ifs with hg
    · refine Raster2.ext rfl rfl ?_
      funext i j
      dsimp only
      split_ifs with h1 h2 <;> first | rfl | omega
    · refine Raster2.ext rfl rfl ?_
      funext i j
      dsimp only
      split_ifs with h1 <;> first | rfl | omega
  · intro α _ src t0 t1 t2 o0 o1 o2
    simp only [padImage3, refPlace3, zeros3, sliceAssign3, dstStart, dstEnd, srcStart]
    split_ifs with hg
    · refine Raster3.ext rfl rfl rfl ?_
      funext k i j
      dsimp only
      split_ifs with h1 h2 <;> first | rfl | omega
    · refine Raster3.ext rfl rfl rfl ?_
      funext k i j
      dsimp only
      split_ifs with h1 <;> first | rfl | omega

/-- C2: for every source raster, target shape and translation vector, the
raster returned by `_pad_image_to_position` has shape exactly the target
shape, in both the rank-2 and the rank-3 branch. -/
theorem pad_shape_invariant :
    (∀ (α : Type) [Zero α] (src : Raster2 α) (t0 t1 : ℕ) (tr : List ℚ),
      (padImageToPosition2 α src t0 t1 tr).shape0 = t0 ∧
      (padImageToPosition2 α src t0 t1 tr).shape1 = t1) ∧
    (∀ (α : Type) [Zero α] (src : Raster3 α) (t0 t1 t2 : ℕ) (tr : List ℚ),
      (padImageToPosition3 α src t0 t1 t2 tr).shape0 = t0 ∧
      (padImageToPosition3 α src t0 t1 t2 tr).shape1 = t1 ∧
      (padImageToPosition3 α src t0 t1 t2 tr).shape2 = t2) := by
  constructor
  · intro α _ src t0 t1 tr
    simp only [padImageToPosition2, padImage2, zeros2, sliceAssign2]
    split_ifs <;> exact ⟨rfl, rfl⟩
  · intro α _ src t0 t1 t2 tr
    simp only [padImageToPosition3, padImage3, zeros3, sliceAssign3]
    split_ifs <;> exact ⟨rfl, rfl, rfl⟩

/-- C3: every element of the raster returned by `_pad_image_to_position` that
lies outside the computed placement rectangle equals the zero of the element
type, in both the rank-2 and the rank-3 branch. -/
theorem outside_rect_zero :
    (∀ (α : Type) [Zero α] (src : Raster2 α) (t0 t1 : ℕ) (tr : List ℚ) (i j : ℤ),
      ¬(dstStart (computeOffsets2 tr).1 ≤ i ∧
        i < dstEnd t0 (computeOffsets2 tr).1 src.shape0 ∧
        dstStart (computeOffsets2 tr).2 ≤ j ∧
        j < dstEnd t1 (computeOffsets2 tr).2 src.shape1) →
      (padImageToPosition2 α src t0 t1 tr).data i j = 0) ∧
    (∀ (α : Type) [Zero α] (src : Raster3 α) (t0 t1 t2 : ℕ) (tr : List ℚ) (k i j : ℤ),
      ¬(dstStart (computeOffsets3 tr).1 ≤ k ∧
        k < dstEnd t0 (computeOffsets3 tr).1 src.shape0 ∧
        dstStart (computeOffsets3 tr).2.1 ≤ i ∧
        i < dstEnd t1 (computeOffsets3 tr).2.1 src.shape1 ∧
        dstStart (computeOffsets3 tr).2.2 ≤ j ∧
        j < dstEnd t2 (computeOffsets3 tr).2.2 src.shape2) →
      (padImageToPosition3 α src t0 t1 t2 tr).data k i j = 0) := by
  constructor
  · intro α _ src t0 t1 tr i j hout
    simp only [padImageToPosition2, padImage2, zeros2, sliceAssign2]
    split_ifs with hg
    · dsimp only
      rw [if_neg hout]
    · rfl
  · intro α _ src t0 t1 t2 tr k i j hout
    simp only [padImageToPosition3, padImage3, zeros3, sliceAssign3]
    split_ifs with hg
    · dsimp only
      rw [if_neg hout]
    · rfl

/-- Witness for C3: with a 2-by-2 source, a 3-by-3 target and the empty
translation (offsets 0), the point (2, 2) lies outside the placement rectangle
and the output there is 0. -/
theorem outside_rect_zero_witness :
    (¬(dstStart (computeOffsets2 []).1 ≤ 2 ∧
       (2 : ℤ) < dstEnd 3 (computeOffsets2 []).1 smallSq.shape0 ∧
       dstStart (computeOffsets2 []).2 ≤ 2 ∧
       (2 : ℤ) < dstEnd 3 (computeOffsets2 []).2 smallSq.shape1)) ∧
    (padImageToPosition2 ℤ smallSq 3 3 []).data 2 2 = 0 :=
  ⟨by decide, outside_rect_zero.1 ℤ smallSq 3 3 [] 2 2 (by decide)⟩

/-- Counterexample to C4: with a 1-by-1 source, a 3-by-3 target and the
3-component translation (2, 0, 1), trailing alignment would use offsets
(0, 1) and leave the point (2, 0) zero, but the code uses the leading two
components (2, 0) and writes the source value 1 at (2, 0). -/
theorem trailing_alignment_refuted :
    (padImageToPosition2 ℤ oneCell 3 3 [2, 0, 1]).data 2 0 ≠
      (padImage2 ℤ oneCell 3 3 (pyRound 0) (pyRound 1)).data 2 0 := by
  have h0 : pyRound 0 = 0 := by unfold pyRound; norm_num
  have h1 : pyRound 1 = 1 := by unfold pyRound; norm_num
  have h2 : pyRound 2 = 2 := by unfold pyRound; norm_num
  show (padImage2 ℤ oneCell 3 3 (pyRound 2) (pyRound 0)).data 2 0 ≠
      (padImage2 ℤ oneCell 3 3 (pyRound 0) (pyRound 1)).data 2 0
  rw [h0, h1, h2]
  decide

/-- C4 as amended: when the translation vector has at least as many components
as the rank of the target shape, `_pad_image_to_position` uses the first
(leading) rank-many components, in order, as the per-axis offsets, discarding
the trailing components. -/
theorem leading_components_used :
    (∀ (α : Type) [Zero α] (src : Raster2 α) (t0 t1 : ℕ) (q0 q1 : ℚ) (rest : List ℚ),
      padImageToPosition2 α src t0 t1 (q0 :: q1 :: rest) =
        padImage2 α src t0 t1 (pyRound q0) (pyRound q1)) ∧
    (∀ (α : Type) [Zero α] (src : Raster3 α) (t0 t1 t2 : ℕ) (q0 q1 q2 : ℚ)
        (rest : List ℚ),
      padImageToPosition3 α src t0 t1 t2 (q0 :: q1 :: q2 :: rest) =
        padImage3 α src t0 t1 t2 (pyRound q0) (pyRound q1) (pyRound q2)) :=
  ⟨fun _ _ _ _ _ _ _ _ => rfl, fun _ _ _ _ _ _ _ _ _ _ => rfl⟩

/-- Counterexample to C5: with a 1-by-1 source, a 3-by-3 target and the
1-component translation (7), the claim would give offsets (0, 7) and an
all-zero output at (0, 0), but the code discards the lone component, uses
offsets (0, 0), and writes the source value 1 at (0, 0). -/
theorem short_translation_refuted :
    (padImageToPosition2 ℤ oneCell 3 3 [7]).data 0 0 ≠
      (padImage2 ℤ oneCell 3 3 0 (pyRound 7)).data 0 0 := by
  have h7 : pyRound 7 = 7 := by unfold pyRound; norm_num
  show (padImage2 ℤ oneCell 3 3 0 0).data 0 0 ≠
      (padImage2 ℤ oneCell 3 3 0 (pyRound 7)).data 0 0
  rw [h7]
  decide

/-- C5 as amended: a 2-component translation with a 3D target gets offset 0 on
the missing leading (depth) axis and the two supplied components, in order, on
the trailing axes; but a translation with fewer than 2 components is discarded
entirely and every offset is 0, in both the rank-2 and the rank-3 branch. -/
theorem short_translation_behaviour :
    (∀ (α : Type) [Zero α] (src : Raster3 α) (t0 t1 t2 : ℕ) (q0 q1 : ℚ),
      padImageToPosition3 α src t0 t1 t2 [q0, q1] =
        padImage3 α src t0 t1 t2 0 (pyRound q0) (pyRound q1)) ∧
    (∀ (α : Type) [Zero α] (src : Raster2 α) (t0 t1 : ℕ) (tr : List ℚ),
      tr.length < 2 →
      padImageToPosition2 α src t0 t1 tr = padImage2 α src t0 t1 0 0) ∧
    (∀ (α : Type) [Zero α] (src : Raster3 α) (t0 t1 t2 : ℕ) (tr : List ℚ),
      tr.length < 2 →
      padImageToPosition3 α src t0 t1 t2 tr = padImage3 α src t0 t1 t2 0 0 0) := by
  refine ⟨fun _ _ _ _ _ _ _ _ => rfl, ?_, ?_⟩
  · intro α _ src t0 t1 tr h
    cases tr with
    | nil => rfl
    | cons q0 rest =>
      cases rest with
      | nil => rfl
      | cons q1 rest2 => simp only [List.length_cons] at h; omega
  · intro α _ src t0 t1 t2 tr h
    cases tr with
    | nil => rfl
    | cons q0 rest =>
      cases rest with
      | nil => rfl
      | cons q1 rest2 => simp only [List.length_cons] at h; omega

/-- Witness for C5 as amended: the 1-component translation (7) with a 2D
target is discarded and the placement runs with offsets (0, 0). -/
theorem short_translation_behaviour_witness :
    List.length [(7 : ℚ)] < 2 ∧
    padImageToPosition2 ℤ oneCell 3 3 [7] = padImage2 ℤ oneCell 3 3 0 0 :=
  ⟨by decide, short_translation_behaviour.2.1 ℤ oneCell 3 3 [7] (by decide)⟩

/-- C6: whenever an axis has positive clamped overlap length, the clamped
ranges of that axis satisfy `0 <= src_start <= src_end <= s` and
`0 <= dst_start <= dst_end <= t`, so the guarded copy never reads the source
or writes the output out of bounds. -/
theorem clamped_bounds_within_range :
    ∀ (s t : ℕ) (o : ℤ), dstStart o < dstEnd t o s →
      0 ≤ srcStart o ∧ srcStart o ≤ srcEnd t o s ∧ srcEnd t o s ≤ (s : ℤ) ∧
      0 ≤ dstStart o ∧ dstStart o ≤ dstEnd t o s ∧ dstEnd t o s ≤ (t : ℤ) := by
  intro s t o h
  simp only [dstStart, dstEnd, srcStart, srcEnd] at h ⊢
  omega

/-- Witness for C6: source extent 2, target extent 4, offset 1 has positive
overlap and all six bound inequalities hold. -/
theorem clamped_bounds_within_range_witness :
    dstStart 1 < dstEnd 4 1 2 ∧
    (0 ≤ srcStart 1 ∧ srcStart 1 ≤ srcEnd 4 1 2 ∧ srcEnd 4 1 2 ≤ (2 : ℤ) ∧
     0 ≤ dstStart 1 ∧ dstStart 1 ≤ dstEnd 4 1 2 ∧ dstEnd 4 1 2 ≤ (4 : ℤ)) :=
  ⟨by decide, clamped_bounds_within_range 2 4 1 (by decide)⟩

/-- C7: when some axis has non-positive clamped overlap length, the guarded
copy is skipped and `_pad_image_to_position` returns the all-zero raster of
the target shape; the operation succeeds and signals no error. -/
theorem no_overlap_returns_zeros :
    (∀ (α : Type) [Zero α] (src : Raster2 α) (t0 t1 : ℕ) (tr : List ℚ),
      (dstEnd t0 (computeOffsets2 tr).1 src.shape0 ≤ dstStart (computeOffsets2 tr).1 ∨
       dstEnd t1 (computeOffsets2 tr).2 src.shape1 ≤ dstStart (computeOffsets2 tr).2) →
      padImageToPosition2 α src t0 t1 tr = zeros2 α t0 t1) ∧
    (∀ (α : Type) [Zero α] (src : Raster3 α) (t0 t1 t2 : ℕ) (tr : List ℚ),
      (dstEnd t0 (computeOffsets3 tr).1 src.shape0 ≤ dstStart (computeOffsets3 tr).1 ∨
       dstEnd t1 (computeOffsets3 tr).2.1 src.shape1 ≤ dstStart (computeOffsets3 tr).2.1 ∨
       dstEnd t2 (computeOffsets3 tr).2.2 src.shape2 ≤ dstStart (computeOffsets3 tr).2.2) →
      padImageToPosition3 α src t0 t1 t2 tr = zeros3 α t0 t1 t2) := by
  constructor
  · intro α _ src t0 t1 tr h
    simp only [padImageToPosition2, padImage2]
    have hng : ¬(dstStart (computeOffsets2 tr).1 <
          dstEnd t0 (computeOffsets2 tr).1 src.shape0 ∧
        dstStart (computeOffsets2 tr).2 <
          dstEnd t1 (computeOffsets2 tr).2 src.shape1) := by omega
    rw [if_neg hng]
  · intro α _ src t0 t1 t2 tr h
    simp only [padImageToPosition3, padImage3]
    have hng : ¬(dstStart (computeOffsets3 tr).1 <
          dstEnd t0 (computeOffsets3 tr).1 src.shape0 ∧
        dstStart (computeOffsets3 tr).2.1 <
          dstEnd t1 (computeOffsets3 tr).2.1 src.shape1 ∧
        dstStart (computeOffsets3 tr).2.2 <
          dstEnd t2 (computeOffsets3 tr).2.2 src.shape2) := by omega
    rw [if_neg hng]

/-- Witness for C7: a 2-by-2 source placed on a target with extent 0 along the
first axis has non-positive overlap there, and the output is the all-zero
raster of the target shape. -/
theorem no_overlap_returns_zeros_witness :
    (dstEnd 0 (computeOffsets2 []).1 smallSq.shape0 ≤ dstStart (computeOffsets2 []).1 ∨
     dstEnd 3 (computeOffsets2 []).2 smallSq.shape1 ≤ dstStart (computeOffsets2 []).2) ∧
    padImageToPosition2 ℤ smallSq 0 3 [] = zeros2 ℤ 0 3 :=
  ⟨by decide, no_overlap_returns_zeros.1 ℤ smallSq 0 3 [] (by decide)⟩

/-- C8: a rank-3 source with a rank-2 target shape and translation (0, 0) does
not produce an InvalidRankError — no such error exists in the code; the 2D
branch runs on the first two source axes and the slice assignment raises a
numpy broadcasting ValueError instead. -/
theorem mixed_rank_raises_broadcast_error :
    padImageToPosition2OfRank3Source ℤ smallCube 4 4 [0, 0] =
      Except.error NpError.broadcastError := by
  have h0 : pyRound 0 = 0 := by unfold pyRound; norm_num
  show padImage2OfRank3Source ℤ smallCube 4 4 (pyRound 0) (pyRound 0) =
      Except.error NpError.broadcastError
  rw [h0]
  rfl

/-- C9: each translation component that the code consumes is turned into a
pixel offset with round-to-nearest (never more than half a pixel away), not
truncation toward zero: 4.7 gives offset 5 and -2.6 gives offset -3 (where
truncation would give -2). -/
theorem translation_rounded_to_nearest :
    (∀ q : ℚ, |q - (pyRound q : ℚ)| ≤ 1 / 2) ∧
    computeOffsets2 [47 / 10, -26 / 10] = (5, -3) := by
  constructor
  · intro q
    have h0 : (⌊q⌋ : ℚ) ≤ q := Int.floor_le q
    have h1 : q < ⌊q⌋ + 1 := Int.lt_floor_add_one q
    unfold pyRound
    split_ifs with ha hb hc <;> rw [abs_le] <;> push_cast <;>
      constructor <;> linarith
  · have ha : pyRound (47 / 10) = 5 := by unfold pyRound; norm_num
    have hb : pyRound (-26 / 10) = -3 := by unfold pyRound; norm_num
    show (pyRound (47 / 10), pyRound (-26 / 10)) = (5, -3)
    rw [ha, hb]

/-- C10: translation components exactly halfway between two integers are
resolved by round-half-to-even, as the Python 3 builtin round does: 0.5 gives
offset 0, 1.5 gives 2, 2.5 gives 2 and -0.5 gives 0. -/
theorem half_ties_round_to_even :
    computeOffsets2 [1 / 2, 3 / 2] = (0, 2) ∧
    computeOffsets2 [5 / 2, -(1 / 2)] = (2, 0) ∧
    ∀ n : ℤ, pyRound ((n : ℚ) + 1 / 2) = if n % 2 = 0 then n else n + 1 := by
  refine ⟨?_, ?_, ?_⟩
  · have ha : pyRound (1 / 2) = 0 := by unfold pyRound; norm_num
    have hb : pyRound (3 / 2) = 2 := by unfold pyRound; norm_num
    show (pyRound (1 / 2), pyRound (3 / 2)) = (0, 2)
    rw [ha, hb]
  · have ha : pyRound (5 / 2) = 2 := by unfold pyRound; norm_num
    have hb : pyRound (-(1 / 2)) = 0 := by unfold pyRound; norm_num
    show (pyRound (5 / 2), pyRound (-(1 / 2))) = (2, 0)
    rw [ha, hb]
  · intro n
    have hf : ⌊(n : ℚ) + 1 / 2⌋ = n := by
      rw [add_comm, Int.floor_add_int]
      norm_num
    have hr : (n : ℚ) + 1 / 2 - (⌊(n : ℚ) + 1 / 2⌋ : ℚ) = 1 / 2 := by
      rw [hf]; ring
    unfold pyRound
    rw [hr, hf]
    norm_num

end ImageAlignment
